import Mathlib

set_option autoImplicit false

/- Shallow embedding of the go-kardia dual Ethereum node (dualnode/eth):
   the outbound settlement engine (SubmitTx, submitEthReleaseTx,
   callKardiaMasterGetEthToSend, ComputeTxMetadata), the release
   transaction builder (dualnode/eth/utils.go, CreateEthReleaseAmountTx),
   the head tracker hand-off buffer (syncHead) and the block dispatcher
   (handleBlock, extractEthTxSummary).  External collaborators — chain
   state reads, the ABI pack/decode descriptor, the static contract call,
   the two transaction pools and the event pool — are explicit fields of
   an environment record, so every theorem quantifies over their
   behavior. -/

namespace DualEth

/-- Chain tag (types.ETHEREUM / types.KARDIA). -/
inductive ChainTag where
  | ETHEREUM
  | KARDIA
deriving DecidableEq, Repr

/-- Kardia main-chain state handle (opaque: the embedded code only passes
it through to collaborator calls). -/
abbrev KState := Unit

/-- Ethereum chain state: the embedded code consumes only GetNonce. -/
structure EthState where
  nonceOf : String → Nat

/-- Dual-chain state: the embedded code consumes only GetNonce of the
fixed dual bridge-state address. -/
structure DualState where
  nonceOf : String → Nat

/-- Event summary extracted from a matched transaction
(types.EventSummary: TxMethod, TxValue). -/
structure EventSummary where
  txMethod : String
  txValue : Nat
deriving DecidableEq, Repr

/-- Destination-side transaction metadata (types.TxMetadata: TxHash,
Target). -/
structure TxMetadata where
  txHash : Nat
  target : ChainTag
deriving DecidableEq, Repr

/-- Cross-chain event record (types.DualEvent as populated by
handleBlock). -/
structure DualEvent where
  nonce : Nat
  isExternal : Bool
  sourceChain : ChainTag
  sourceTxHash : Nat
  summary : EventSummary
  pendingTxMetadata : Option TxMetadata
deriving DecidableEq, Repr

/-- Signed Ethereum release transaction: the record built by the ethsmc
collaborator from contract address, quantity, receiver and nonce. -/
structure ReleaseTx where
  contract : String
  quantity : Nat
  receiver : String
  nonce : Nat
deriving DecidableEq, Repr

/-- Kardia destination-chain debit transaction (the removeEth tx built by
CreateKardiaRemoveAmountTx). -/
structure KaiTx where
  value : Nat
  target : ChainTag
deriving DecidableEq, Repr

/-- Ethereum transaction as consumed by handleBlock: destination address
To (nil for contract creation), native value, call input and hash
identity. -/
structure EthTx where
  toAddr : Option String
  value : Nat
  data : List Nat
  hash : Nat
deriving DecidableEq, Repr

/-- Ethereum block: an ordered transaction list. -/
structure EthBlock where
  txs : List EthTx
deriving DecidableEq, Repr

/-- Modelled from the spec: the fixed contract-sign account on the source
chain (ethsmc.EthAccountSign, a constant not under src); the concrete hex
value is immaterial to every claim. -/
def EthAccountSign : String := "EthAccountSign"

/-- Modelled from the spec: the fixed receiving address of a release
transaction (ethsmc constant not under src; value immaterial). -/
def EthReceiveAcc : String := "EthReceiveAcc"

/-- Modelled from the spec: the well-known dual bridge-state account
(dualbc.DualStateAddressHex, not under src; value immaterial). -/
def DualStateAddressHex : String := "DualStateAddressHex"

/-- The error value NonceZeroFromContract of src/dualnode/eth/utils.go;
the spec names this failure NonceUnavailable. -/
inductive BuildErr where
  | NonceZeroFromContract
deriving DecidableEq, Repr

/-- Modelled from the spec: collaborator buildReleaseTx of §6
(ethsmc.CreateEthReleaseTx, not under src) — packs contract address,
amount, recipient and nonce into a signed release transaction. -/
def CreateEthReleaseTx (contractAddr : String) (quantity : Nat)
    (receiveAddr : String) (nonce : Nat) : ReleaseTx :=
  { contract := contractAddr, quantity := quantity,
    receiver := receiveAddr, nonce := nonce }

/-- Model of a signed release transaction hash (collaborator tx.Hash();
stands in for keccak, injective in quantity and nonce). -/
def ethTxHash (t : ReleaseTx) : Nat :=
  t.quantity * 18446744073709551616 + t.nonce

/-- CreateEthReleaseAmountTx of src/dualnode/eth/utils.go: reads the
signing-account nonce from Ethereum state; a zero nonce fails with
NonceZeroFromContract and no transaction is built; otherwise the release
transaction is built by the ethsmc collaborator. -/
def CreateEthReleaseAmountTx (contractAddr : String) (recipientAddr : String)
    (receiveAddr : String) (statedb : EthState) (quantity : Nat) :
    Except BuildErr ReleaseTx :=
  let nonce := statedb.nonceOf recipientAddr
  if nonce = 0 then .error .NonceZeroFromContract
  else .ok (CreateEthReleaseTx contractAddr quantity receiveAddr nonce)

/-- Internal chain adapter collaborator
(dualbc.BlockChainAdapter.ComputeTxMetadata as invoked on the triggered
event by handleBlock). -/
abbrev Adapter := DualEvent → Option TxMetadata

/-- Collaborator environment of the Eth dual node: the fields of the Go
Eth struct that reach outside src made explicit — chain state reads, the
ABI pack of getEthToSend, the static master-contract call, the pools'
accept behavior, the input-method decoder and the configured bridge
contract address. -/
structure EthEnv where
  kardiaState : Except String KState
  ethState : Except String EthState
  dualState : Except String DualState
  packGetEthToSend : Option (List Nat)
  callStatic : KState → List Nat → Option (List Nat)
  ethPoolAccepts : Option ReleaseTx → Bool
  kaiPoolAccepts : KaiTx → Bool
  addEventAccepts : DualEvent → Bool
  decodeMethod : List Nat → Option String
  contractAddress : String

/-- big.Int SetBytes: big-endian byte decoding of the static call return
value. -/
def bytesToNat (bs : List Nat) : Nat :=
  bs.foldl (fun a b => a * 256 + b % 256) 0

/-- callKardiaMasterGetEthToSend: packs the getEthToSend call and
performs the static master-contract call; either failure is logged and
read as 0, the success bytes decode as an unsigned integer. -/
def callKardiaMasterGetEthToSend (env : EthEnv) (st : KState) : Nat :=
  match env.packGetEthToSend with
  | none => 0
  | some input =>
    match env.callStatic st input with
    | none => 0
    | some ret => bytesToNat ret

/-- The release build exactly as the dual node call sites use it
(submitEthReleaseTx and ComputeTxMetadata): the signing account is the
fixed contract-sign account, and the caller observes only the
transaction, a failed build surfacing as the nil transaction (the call
site drops the error value). -/
def buildRelease (statedb : EthState) (value : Nat) : Option ReleaseTx :=
  (CreateEthReleaseAmountTx EthAccountSign EthAccountSign EthReceiveAcc
    statedb value).toOption

/-- Observable outcome of submitEthReleaseTx: log records and the
AddLocal calls made on the Ethereum transaction pool (an argument of none
is the nil transaction handed to the pool). -/
structure SubmitEthOut where
  logs : List String
  poolCalls : List (Option ReleaseTx)
deriving DecidableEq, Repr

/-- submitEthReleaseTx: an Ethereum state-read failure logs and returns;
otherwise the release transaction is built, a failed build (nil tx) is
logged, and then AddLocal is called with the transaction — the source has
no early return after the nil check, so the pool call is made even with
the nil transaction. -/
def submitEthReleaseTx (env : EthEnv) (value : Nat) : SubmitEthOut :=
  match env.ethState with
  | .error _ =>
    { logs := ["Fail to get Ethereum state to create release tx"],
      poolCalls := [] }
  | .ok statedb =>
    let tx := buildRelease statedb value
    let buildLog := if tx.isNone then ["Fail to create Eth tx"] else []
    let addLog := if env.ethPoolAccepts tx then "Add Eth release tx successfully"
      else "Fail to add Ether tx"
    { logs := buildLog ++ [addLog], poolCalls := [tx] }

/-- Modelled from the spec: the destination-chain debit builder
(dualnode/kardia.CreateKardiaRemoveAmountTx, not under src) — a signed
removeEth transaction for exactly the queued amount, tagged with the
triggering chain. -/
def CreateKardiaRemoveAmountTx (_statedb : KState) (value : Nat)
    (chain : ChainTag) : KaiTx :=
  { value := value, target := chain }

/-- Observable outcome of SubmitTx: the returned error, the AddLocal
calls on the Ethereum pool, the AddLocal calls on the Kardia pool and log
records. -/
structure SubmitTxOut where
  err : Option String
  ethPoolCalls : List (Option ReleaseTx)
  kaiPoolCalls : List KaiTx
  logs : List String
deriving DecidableEq, Repr

/-- SubmitTx: reads Kardia state (a failure is returned to the caller),
reads the pending amount through callKardiaMasterGetEthToSend, and when
it is non-zero runs submitEthReleaseTx and then builds and submits the
Kardia removeEth debit; pool failures are only logged and SubmitTx
returns nil. -/
def SubmitTx (env : EthEnv) : SubmitTxOut :=
  match env.kardiaState with
  | .error e =>
    { err := some e, ethPoolCalls := [], kaiPoolCalls := [],
      logs := ["Fail to get Kardia state"] }
  | .ok statedb =>
    let ethSendValue := callKardiaMasterGetEthToSend env statedb
    if ethSendValue ≠ 0 then
      let rel := submitEthReleaseTx env ethSendValue
      let tx := CreateKardiaRemoveAmountTx statedb ethSendValue .ETHEREUM
      let addLog := if env.kaiPoolAccepts tx
        then "Submitted removeEth tx to the tx pool successfully"
        else "Fail to add Kardia tx to removeEth"
      { err := none, ethPoolCalls := rel.poolCalls, kaiPoolCalls := [tx],
        logs := ["Kardia smc calls getEthToSend"] ++ rel.logs ++ [addLog] }
    else
      { err := none, ethPoolCalls := [], kaiPoolCalls := [],
        logs := ["Kardia smc calls getEthToSend"] }

/-- Observable outcome of ComputeTxMetadata: the returned metadata (nil
or populated), whether the nil built transaction was dereferenced
(ethTx.Hash() on the nil transaction — a runtime panic) and the pool
calls made (the source submits nothing here). -/
structure ComputeOut where
  result : Option TxMetadata
  nilDeref : Bool
  ethPoolCalls : List (Option ReleaseTx)
deriving DecidableEq, Repr

/-- ComputeTxMetadata: returns nil on an Ethereum state-read failure;
otherwise it performs the same release build as submitEthReleaseTx,
submits nothing, and returns the hash of the built transaction paired
with the ETHEREUM target; a failed build (nil transaction) is
dereferenced unchecked at ethTx.Hash(). -/
def ComputeTxMetadata (env : EthEnv) (txValue : Nat) : ComputeOut :=
  match env.ethState with
  | .error _ => { result := none, nilDeref := false, ethPoolCalls := [] }
  | .ok statedb =>
    match buildRelease statedb txValue with
    | none => { result := none, nilDeref := true, ethPoolCalls := [] }
    | some ethTx =>
      { result := some { txHash := ethTxHash ethTx, target := .ETHEREUM },
        nilDeref := false, ethPoolCalls := [] }

/-- The single-slot hand-off buffer of syncHead (blockCh of capacity 1);
none is the empty buffer, some b an undelivered block value b (the block
value delivered by a head notification may itself be nil). -/
abbrev HeadBuffer := Option (Option EthBlock)

/-- Non-blocking insert of the listener loop (select with default): an
empty buffer takes the block, a full buffer keeps its undelivered block
and the new notification is dropped; the insert is a total function of
the buffer, so it never suspends the notification feed. -/
def bufferInsert (buf : HeadBuffer) (b : Option EthBlock) : HeadBuffer :=
  match buf with
  | none => some b
  | some old => some old

/-- Modelled from types.NewDualEvent as invoked by handleBlock (types
package, not under src): nonce, externality flag, source chain tag,
source tx hash and summary; the pending metadata field starts empty. -/
def NewDualEvent (nonce : Nat) (isExternal : Bool) (chain : ChainTag)
    (txHash : Nat) (summary : EventSummary) : DualEvent :=
  { nonce := nonce, isExternal := isExternal, sourceChain := chain,
    sourceTxHash := txHash, summary := summary, pendingTxMetadata := none }

/-- extractEthTxSummary: decodes the method name of the transaction call
input through the ethsmc descriptor and pairs it with the native value; a
decode failure is logged and returned as an error. -/
def extractEthTxSummary (env : EthEnv) (tx : EthTx) :
    Except String EventSummary :=
  match env.decodeMethod tx.data with
  | none => .error "Error when unpack Eth smc input"
  | some method => .ok { txMethod := method, txValue := tx.value }

/-- The dual event assembled by handleBlock for a matched transaction:
nonce read from dual state at the fixed bridge-state address, external
flag true, ETHEREUM tag, the transaction hash and the extracted summary,
with the adapter metadata attached immediately after construction. -/
def eventOf (ad : Adapter) (ds : DualState) (tx : EthTx)
    (summary : EventSummary) : DualEvent :=
  let ev := NewDualEvent (ds.nonceOf DualStateAddressHex) true .ETHEREUM
    tx.hash summary
  { ev with pendingTxMetadata := ad ev }

/-- Trace of a block scan: log records, the AddEvent calls made
(attempted events) and the events the pool accepted. -/
structure HTrace where
  logs : List String
  attempts : List DualEvent
  added : List DualEvent
deriving DecidableEq, Repr

/-- Outcome of handleBlock: a runtime panic with its message, or a normal
return with the trace; completed is true when the transaction scan
reached the end of the block. -/
inductive ScanOut where
  | panicked (msg : String) (tr : HTrace)
  | done (tr : HTrace) (completed : Bool)
deriving DecidableEq, Repr

/-- Trace component of an outcome. -/
def ScanOut.trace : ScanOut → HTrace
  | .panicked _ tr => tr
  | .done tr _ => tr

/-- Events the pool accepted during the scan. -/
def ScanOut.added (s : ScanOut) : List DualEvent := s.trace.added

/-- AddEvent calls made during the scan. -/
def ScanOut.attempts (s : ScanOut) : List DualEvent := s.trace.attempts

/-- Log records of the scan. -/
def ScanOut.logs (s : ScanOut) : List String := s.trace.logs

/-- True exactly when the scan returned normally after examining the
whole block. -/
def ScanOut.isDoneCompleted : ScanOut → Bool
  | .done _ c => c
  | .panicked _ _ => false

/-- Per-transaction log records of a fully successful match. -/
def matchLogsOk : List String :=
  ["New Eth tx detected on smart contract", "Create DualEvent for Eth Tx",
   "Submitted Eth DualEvent to event pool successfully"]

/-- The transaction scan loop of handleBlock: a transaction addressed to
the bridge contract is summarised (a decode failure panics with the
unimplemented-path message), the dual state is read (a failure logs and
aborts the scan), the event is assembled and handed to the event pool (a
rejection logs and aborts the scan with a plain return); any other
transaction is skipped with no effect. -/
def scanTxs (env : EthEnv) (ad : Adapter) (addr : String) :
    List EthTx → ScanOut
  | [] => .done { logs := [], attempts := [], added := [] } true
  | tx :: rest =>
    if tx.toAddr = some addr then
      match extractEthTxSummary env tx with
      | .error _ =>
        .panicked "Not yet implemented!"
          { logs := ["New Eth tx detected on smart contract",
                     "Error when unpack Eth smc input",
                     "Error when extracting Eth tx summary."],
            attempts := [], added := [] }
      | .ok summary =>
        match env.dualState with
        | .error _ =>
          .done { logs := ["New Eth tx detected on smart contract",
                           "Fail to get Kardia state"],
                  attempts := [], added := [] } false
        | .ok ds =>
          let ev := eventOf ad ds tx summary
          if env.addEventAccepts ev then
            match scanTxs env ad addr rest with
            | .panicked m tr =>
              .panicked m { logs := matchLogsOk ++ tr.logs,
                            attempts := ev :: tr.attempts,
                            added := ev :: tr.added }
            | .done tr c =>
              .done { logs := matchLogsOk ++ tr.logs,
                      attempts := ev :: tr.attempts,
                      added := ev :: tr.added } c
          else
            .done { logs := ["New Eth tx detected on smart contract",
                             "Create DualEvent for Eth Tx",
                             "Fail to add dual event"],
                    attempts := [ev], added := [] } false
    else scanTxs env ad addr rest

/-- handleBlock: panics when the internal chain adapter is not registered
— this check precedes everything, including the nil-block check; a nil
block is then a logged no-op (exactly one log record, never
dereferenced); otherwise the transaction scan runs against the configured
bridge contract address. -/
def handleBlock (env : EthEnv) (internalChain : Option Adapter)
    (block : Option EthBlock) : ScanOut :=
  match internalChain with
  | none =>
    .panicked "Internal chain needs not to be nil."
      { logs := [], attempts := [], added := [] }
  | some ad =>
    match block with
    | none =>
      .done { logs := ["handleBlock with nil block"],
              attempts := [], added := [] } true
    | some b =>
      match scanTxs env ad env.contractAddress b.txs with
      | .panicked m tr =>
        .panicked m { logs := "handleBlock..." :: tr.logs,
                      attempts := tr.attempts, added := tr.added }
      | .done tr c =>
        .done { logs := "handleBlock..." :: tr.logs,
                attempts := tr.attempts, added := tr.added } c

/-- RegisterInternalChain: installs the internal chain adapter (the field
of the Eth struct starts unregistered, none). -/
def RegisterInternalChain (internalChain : Adapter) : Option Adapter :=
  some internalChain

/-- Concrete Ethereum state whose signing-account nonce reads zero. -/
def zeroNonceState : EthState := { nonceOf := fun _ => 0 }

/-- Concrete Ethereum state whose signing-account nonce reads one. -/
def oneNonceState : EthState := { nonceOf := fun _ => 1 }

/-- Concrete environment of a poll cycle reading pending amount 500 (the
bytes [1, 244] decode to 500), with a zero source-chain signing nonce. -/
def envZeroNonce : EthEnv :=
  { kardiaState := .ok (), ethState := .ok zeroNonceState,
    dualState := .error "unused", packGetEthToSend := some [0],
    callStatic := fun _ _ => some [1, 244],
    ethPoolAccepts := fun _ => true, kaiPoolAccepts := fun _ => true,
    addEventAccepts := fun _ => true, decodeMethod := fun _ => none,
    contractAddress := "bridge" }

/-- Concrete environment of a poll cycle reading pending amount 500 whose
Ethereum state read fails. -/
def envPendingNoEthState : EthEnv :=
  { kardiaState := .ok (), ethState := .error "leveldb closed",
    dualState := .error "unused", packGetEthToSend := some [7],
    callStatic := fun _ _ => some [1, 244],
    ethPoolAccepts := fun _ => true, kaiPoolAccepts := fun _ => true,
    addEventAccepts := fun _ => true, decodeMethod := fun _ => none,
    contractAddress := "bridge" }

/-- Concrete environment with a healthy Ethereum state (nonce one) for a
poll cycle reading pending amount 500. -/
def envEthOk : EthEnv :=
  { kardiaState := .ok (), ethState := .ok oneNonceState,
    dualState := .error "unused", packGetEthToSend := some [7],
    callStatic := fun _ _ => some [1, 244],
    ethPoolAccepts := fun _ => true, kaiPoolAccepts := fun _ => true,
    addEventAccepts := fun _ => true, decodeMethod := fun _ => none,
    contractAddress := "bridge" }

/-- Concrete environment whose getEthToSend packing fails. -/
def envPackFails : EthEnv :=
  { kardiaState := .ok (), ethState := .ok oneNonceState,
    dualState := .error "unused", packGetEthToSend := none,
    callStatic := fun _ _ => some [1, 244],
    ethPoolAccepts := fun _ => true, kaiPoolAccepts := fun _ => true,
    addEventAccepts := fun _ => true, decodeMethod := fun _ => none,
    contractAddress := "bridge" }

/-- Concrete environment whose static call genuinely returns zero bytes. -/
def envGenuineZero : EthEnv :=
  { kardiaState := .ok (), ethState := .ok oneNonceState,
    dualState := .error "unused", packGetEthToSend := some [7],
    callStatic := fun _ _ => some [0],
    ethPoolAccepts := fun _ => true, kaiPoolAccepts := fun _ => true,
    addEventAccepts := fun _ => true, decodeMethod := fun _ => none,
    contractAddress := "bridge" }

/-- The ComputeTxMetadata outcome that returns nil with no submission. -/
def metaNil : ComputeOut :=
  { result := none, nilDeref := false, ethPoolCalls := [] }

/-- The ComputeTxMetadata outcome returning the populated metadata pair
for the given transaction hash, with no submission. -/
def metaOf (h : Nat) : ComputeOut :=
  { result := some { txHash := h, target := ChainTag.ETHEREUM },
    nilDeref := false, ethPoolCalls := [] }

/-- The release transaction built at nonce one for quantity 500. -/
def relTx500 : ReleaseTx :=
  { contract := EthAccountSign, quantity := 500,
    receiver := EthReceiveAcc, nonce := 1 }

/-- The environment with both pools' accept/reject behavior replaced;
used to state that the submission calls are independent of the pools'
responses. -/
def updPools (env : EthEnv) (f : Option ReleaseTx → Bool)
    (g : KaiTx → Bool) : EthEnv :=
  { env with ethPoolAccepts := f, kaiPoolAccepts := g }

/-- Expected events of a fully successful scan: one per matched
transaction, in block order, each built from the decoded method and the
transaction's native value. -/
def expectedEvents (ad : Adapter) (ds : DualState) (mName : EthTx → String)
    (addr : String) (txs : List EthTx) : List DualEvent :=
  (txs.filter (fun tx => decide (tx.toAddr = some addr))).map
    (fun tx => eventOf ad ds tx { txMethod := mName tx, txValue := tx.value })

/-- The scan trace contributed by a fully successful match in front of a
remaining trace. -/
def consTrace (ev : DualEvent) (tr : HTrace) : HTrace :=
  { logs := matchLogsOk ++ tr.logs, attempts := ev :: tr.attempts,
    added := ev :: tr.added }

/-- The handleBlock trace of a scan aborted by the pool rejecting the
first matched transaction's event. -/
def rejTrace (ev : DualEvent) : HTrace :=
  { logs := ["handleBlock...", "New Eth tx detected on smart contract",
             "Create DualEvent for Eth Tx", "Fail to add dual event"],
    attempts := [ev], added := [] }

/-- Trivial internal chain adapter returning no metadata. -/
def adNone : Adapter := fun _ => none

/-- Concrete dual-chain state whose bridge-state nonce reads nine. -/
def nineNonceDual : DualState := { nonceOf := fun _ => 9 }

/-- Concrete dispatcher environment: dual state available, every event
accepted, every input decoding to the method deposit. -/
def envScanOk : EthEnv :=
  { kardiaState := .ok (), ethState := .error "unused",
    dualState := .ok nineNonceDual, packGetEthToSend := none,
    callStatic := fun _ _ => none,
    ethPoolAccepts := fun _ => true, kaiPoolAccepts := fun _ => true,
    addEventAccepts := fun _ => true,
    decodeMethod := fun _ => some "deposit",
    contractAddress := "bridge" }

/-- Concrete dispatcher environment identical to envScanOk except that
the event pool rejects every event. -/
def envReject : EthEnv :=
  { kardiaState := .ok (), ethState := .error "unused",
    dualState := .ok nineNonceDual, packGetEthToSend := none,
    callStatic := fun _ _ => none,
    ethPoolAccepts := fun _ => true, kaiPoolAccepts := fun _ => true,
    addEventAccepts := fun _ => false,
    decodeMethod := fun _ => some "deposit",
    contractAddress := "bridge" }

/-- Concrete transaction addressed to the bridge contract, value 1000. -/
def txA : EthTx :=
  { toAddr := some "bridge", value := 1000, data := [1], hash := 11 }

/-- Concrete transaction addressed elsewhere. -/
def txB : EthTx :=
  { toAddr := some "other", value := 5, data := [2], hash := 22 }

/-- Concrete contract-creation transaction (no destination address). -/
def txC : EthTx :=
  { toAddr := none, value := 6, data := [3], hash := 33 }

/-- Concrete second transaction addressed to the bridge contract, value
2000. -/
def txD : EthTx :=
  { toAddr := some "bridge", value := 2000, data := [4], hash := 44 }

/-- Concrete block with one matched and two unmatched transactions. -/
def blkABC : EthBlock := { txs := [txA, txB, txC] }

/-- Concrete block with two matched transactions. -/
def blkAD : EthBlock := { txs := [txA, txD] }

/-- C1: against the claim, a zero source-chain nonce does make the build
fail with the nonce error (NonceUnavailable in the spec's taxonomy) and
no transaction is built — but submitEthReleaseTx still hands the nil
transaction to the source pool: the AddLocal call list is [none], not [],
because the nil check has no early return. -/
theorem c1_zero_nonce_build_fails_but_pool_still_called :
    CreateEthReleaseAmountTx EthAccountSign EthAccountSign EthReceiveAcc
      zeroNonceState 500 = .error .NonceZeroFromContract
    ∧ (submitEthReleaseTx envZeroNonce 500).poolCalls = [none] := by
  exact ⟨rfl, rfl⟩

/-- C5: the hand-off buffer never evicts: an insert into a full buffer
keeps the old undelivered block and drops the newcomer, any sequence of
further notifications leaves a full buffer unchanged, and an insert into
an empty buffer stores the block; the insert is a total function, so the
notification feed is never blocked. -/
theorem c5_buffer_never_evicts (old b : Option EthBlock)
    (ns : List (Option EthBlock)) :
    bufferInsert (some old) b = some old
    ∧ List.foldl bufferInsert (some old) ns = some old
    ∧ bufferInsert none b = some b := by
  refine ⟨rfl, ?_, rfl⟩
  induction ns with
  | nil => rfl
  | cons hd tl ih => simpa [bufferInsert] using ih

/-- C6 counterexample: a nil block delivered while the internal chain
adapter is unregistered panics with zero log records, so the claim's
unconditional no-panic guarantee for nil blocks is false on the code. -/
theorem c6_counterexample_nil_block_panics_unregistered :
    handleBlock envZeroNonce none none
      = .panicked "Internal chain needs not to be nil."
          { logs := [], attempts := [], added := [] } := rfl

/-- C6 amended: whenever a nil block is delivered and the internal chain
adapter is registered, handleBlock is a logged no-op — no event is
attempted or produced, no panic occurs and exactly one log record is
emitted; the nil block is never dereferenced (the outcome is this fixed
record for every environment and adapter). -/
theorem c6_amended_nil_block_noop (env : EthEnv) (ad : Adapter) :
    handleBlock env (some ad) none
      = .done { logs := ["handleBlock with nil block"],
                attempts := [], added := [] } true := rfl

/-- C8: SubmitTx returns a non-nil error exactly when the initial Kardia
state read fails (and then it returns that read's error); in every other
environment — including release-build failures and rejections by either
pool — SubmitTx returns nil. -/
theorem c8_submit_error_iff_kardia_state_read (env : EthEnv) :
    (SubmitTx env).err
      = (match env.kardiaState with
        | .error e => some e
        | .ok _ => none) := by
  cases h : env.kardiaState with
  | error e => simp [SubmitTx, h]
  | ok st =>
    simp only [SubmitTx, h]
    split <;> rfl

/-- C10: with an unregistered internal chain adapter, handleBlock panics
for every block value, nil included — the adapter check precedes the
nil-block check, so even a nil block panics with no log record instead of
the logged no-op. -/
theorem c10_unregistered_adapter_always_panics (env : EthEnv)
    (block : Option EthBlock) :
    handleBlock env none block
      = .panicked "Internal chain needs not to be nil."
          { logs := [], attempts := [], added := [] } := rfl

/-- C2 counterexample: a poll cycle reading pending amount 500 whose
Ethereum state read fails submits the debit for 500 to the destination
pool but makes no submission at all to the source pool — the claimed
"exactly one release transaction for 500 is submitted" is false on this
cycle. -/
theorem c2_counterexample_release_skipped_on_state_read :
    callKardiaMasterGetEthToSend envPendingNoEthState () = 500
    ∧ (SubmitTx envPendingNoEthState).kaiPoolCalls
        = [{ value := 500, target := .ETHEREUM }]
    ∧ ¬ (SubmitTx envPendingNoEthState).ethPoolCalls.length = 1 := by
  refine ⟨rfl, rfl, ?_⟩
  decide

/-- The pool calls of submitEthReleaseTx: none on a state-read failure,
exactly one call carrying the build result otherwise. -/
theorem submitEthReleaseTx_poolCalls (env : EthEnv) (v : Nat) :
    (submitEthReleaseTx env v).poolCalls
      = (match env.ethState with
        | .error _ => []
        | .ok s => [buildRelease s v]) := by
  cases he : env.ethState <;> simp [submitEthReleaseTx, he]

/-- The submission calls of SubmitTx as functions of the pending-amount
read, when the Kardia state read succeeds. -/
theorem SubmitTx_calls (env : EthEnv) (st : KState)
    (hk : env.kardiaState = .ok st) :
    (SubmitTx env).ethPoolCalls
      = (if callKardiaMasterGetEthToSend env st = 0 then []
        else (submitEthReleaseTx env
          (callKardiaMasterGetEthToSend env st)).poolCalls)
    ∧ (SubmitTx env).kaiPoolCalls
      = (if callKardiaMasterGetEthToSend env st = 0 then []
        else [CreateKardiaRemoveAmountTx st
          (callKardiaMasterGetEthToSend env st) ChainTag.ETHEREUM]) := by
  by_cases hv : callKardiaMasterGetEthToSend env st = 0 <;>
    constructor <;> simp [SubmitTx, hk, hv]

/-- C2 amended: in a poll cycle whose Kardia state read succeeds, a zero
pending amount performs no submission of either kind; a non-zero pending
amount v always submits exactly one debit for v to the destination pool,
and makes exactly one release submission to the source pool provided the
source-chain state read succeeds (the submitted value being the build's
result, the nil transaction when the signing nonce is zero), while a
source-chain state-read failure skips the release but not the debit; the
submissions are independent of both pools' accept/reject behavior. -/
theorem c2_amended_poll_settlement (env : EthEnv) (st : KState)
    (hk : env.kardiaState = .ok st) :
    (callKardiaMasterGetEthToSend env st = 0 →
      (SubmitTx env).ethPoolCalls = [] ∧ (SubmitTx env).kaiPoolCalls = [])
    ∧ (callKardiaMasterGetEthToSend env st ≠ 0 →
      (SubmitTx env).kaiPoolCalls
        = [CreateKardiaRemoveAmountTx st (callKardiaMasterGetEthToSend env st)
            ChainTag.ETHEREUM]
      ∧ (∀ e, env.ethState = .error e → (SubmitTx env).ethPoolCalls = [])
      ∧ (∀ est, env.ethState = .ok est →
          (SubmitTx env).ethPoolCalls
            = [buildRelease est (callKardiaMasterGetEthToSend env st)]))
    ∧ (∀ f g,
        (SubmitTx (updPools env f g)).ethPoolCalls
          = (SubmitTx env).ethPoolCalls
        ∧ (SubmitTx (updPools env f g)).kaiPoolCalls
          = (SubmitTx env).kaiPoolCalls) := by
  have hcall : ∀ f g,
      callKardiaMasterGetEthToSend (updPools env f g) st
        = callKardiaMasterGetEthToSend env st := by
    intro f g
    rfl
  obtain ⟨hc, hd⟩ := SubmitTx_calls env st hk
  refine ⟨?_, ?_, ?_⟩
  · intro hv
    rw [hc, hd, if_pos hv, if_pos hv]
    exact ⟨rfl, rfl⟩
  · intro hv
    refine ⟨?_, ?_, ?_⟩
    · rw [hd, if_neg hv]
    · intro e he
      rw [hc, if_neg hv, submitEthReleaseTx_poolCalls, he]
    · intro est he
      rw [hc, if_neg hv, submitEthReleaseTx_poolCalls, he]
  · intro f g
    obtain ⟨ha, hb⟩ := SubmitTx_calls (updPools env f g) st hk
    constructor
    · rw [ha, hc, hcall f g, submitEthReleaseTx_poolCalls,
        submitEthReleaseTx_poolCalls]
      rfl
    · rw [hb, hd, hcall f g]

/-- C2 amended witness: at the concrete 500-pending environments, the
debit for 500 is always submitted; the release submission is skipped when
the Ethereum state read fails and carries the built transaction when it
succeeds. -/
theorem c2_amended_poll_settlement_witness :
    (SubmitTx envPendingNoEthState).kaiPoolCalls
      = [CreateKardiaRemoveAmountTx () 500 ChainTag.ETHEREUM]
    ∧ (SubmitTx envPendingNoEthState).ethPoolCalls = []
    ∧ (SubmitTx envEthOk).ethPoolCalls = [buildRelease oneNonceState 500] := by
  have h1 := (c2_amended_poll_settlement envPendingNoEthState () rfl).2.1
    (by decide)
  have h2 := (c2_amended_poll_settlement envEthOk () rfl).2.1 (by decide)
  exact ⟨h1.1, h1.2.1 "leveldb closed" rfl, h2.2.2 oneNonceState rfl⟩

/-- C7: ComputeTxMetadata never submits anything to a pool; it returns
nil (not zero-valued metadata) on any Ethereum state-read failure; and
when the state read succeeds and the build produces a transaction, the
build is the very same one the submission path submits, and the returned
metadata is that transaction's hash paired with the ETHEREUM target. -/
theorem c7_metadata_same_build_no_submit (env : EthEnv) (v : Nat) :
    (ComputeTxMetadata env v).ethPoolCalls = []
    ∧ (∀ e, env.ethState = .error e → ComputeTxMetadata env v = metaNil)
    ∧ (∀ st tx, env.ethState = .ok st → buildRelease st v = some tx →
        ComputeTxMetadata env v = metaOf (ethTxHash tx)
        ∧ (submitEthReleaseTx env v).poolCalls = [some tx]) := by
  refine ⟨?_, ?_, ?_⟩
  · cases he : env.ethState with
    | error e => simp [ComputeTxMetadata, he]
    | ok st =>
      cases hb : buildRelease st v <;>
        simp [ComputeTxMetadata, he, hb]
  · intro e he
    simp [ComputeTxMetadata, he, metaNil]
  · intro st tx he hb
    constructor
    · simp [ComputeTxMetadata, he, hb, metaOf]
    · simp [submitEthReleaseTx, he, hb]

/-- C7 witness: at the concrete environments, the metadata computation
returns the hash of exactly the transaction the submission path submits
(nonce one, quantity 500), and returns nil when the state read fails. -/
theorem c7_metadata_same_build_no_submit_witness :
    ComputeTxMetadata envEthOk 500 = metaOf (ethTxHash relTx500)
    ∧ (submitEthReleaseTx envEthOk 500).poolCalls = [some relTx500]
    ∧ ComputeTxMetadata envPendingNoEthState 500 = metaNil := by
  have h1 := (c7_metadata_same_build_no_submit envEthOk 500).2.2
    oneNonceState relTx500 rfl rfl
  have h2 := (c7_metadata_same_build_no_submit envPendingNoEthState 500).2.1
    "leveldb closed" rfl
  exact ⟨h1.1, h1.2, h2⟩

/-- C9: when packing the getEthToSend view call fails or the static
contract call fails, the pending-amount read returns exactly 0, so the
cycle performs no submission and SubmitTx returns nil — the same
interface outcome (nil error, no source-pool call, no destination-pool
call) as any cycle whose genuinely read pending amount is zero. -/
theorem c9_read_failures_read_as_zero (env : EthEnv) (st : KState)
    (hfail : env.packGetEthToSend = none
      ∨ ∃ inp, env.packGetEthToSend = some inp
          ∧ env.callStatic st inp = none) :
    callKardiaMasterGetEthToSend env st = 0
    ∧ (env.kardiaState = .ok st →
        (SubmitTx env).err = none ∧ (SubmitTx env).ethPoolCalls = []
        ∧ (SubmitTx env).kaiPoolCalls = [])
    ∧ (∀ env2 : EthEnv, ∀ st2 : KState, env2.kardiaState = .ok st2 →
        callKardiaMasterGetEthToSend env2 st2 = 0 →
        (SubmitTx env2).err = none ∧ (SubmitTx env2).ethPoolCalls = []
        ∧ (SubmitTx env2).kaiPoolCalls = []) := by
  have hzero : callKardiaMasterGetEthToSend env st = 0 := by
    rcases hfail with hp | ⟨inp, hp, hc⟩
    · simp [callKardiaMasterGetEthToSend, hp]
    · simp [callKardiaMasterGetEthToSend, hp, hc]
  refine ⟨hzero, ?_, ?_⟩
  · intro hk
    simp [SubmitTx, hk, hzero]
  · intro env2 st2 hk2 hz2
    simp [SubmitTx, hk2, hz2]

/-- C9 witness: a pack failure reads as pending amount 0 with the idle
interface outcome, identical to the outcome of a genuine zero read. -/
theorem c9_read_failures_read_as_zero_witness :
    callKardiaMasterGetEthToSend envPackFails () = 0
    ∧ (SubmitTx envPackFails).err = none
    ∧ (SubmitTx envPackFails).ethPoolCalls = []
    ∧ (SubmitTx envPackFails).kaiPoolCalls = []
    ∧ (SubmitTx envGenuineZero).err = none
    ∧ (SubmitTx envGenuineZero).ethPoolCalls = []
    ∧ (SubmitTx envGenuineZero).kaiPoolCalls = [] := by
  have h := c9_read_failures_read_as_zero envPackFails () (Or.inl rfl)
  have h1 := h.2.1 rfl
  have h2 := h.2.2 envGenuineZero () rfl (by decide)
  exact ⟨h.1, h1.1, h1.2.1, h1.2.2, h2.1, h2.2.1, h2.2.2⟩

/-- The assembled event carries the extracted summary unchanged. -/
theorem eventOf_summary (ad : Adapter) (ds : DualState) (tx : EthTx)
    (s : EventSummary) : (eventOf ad ds tx s).summary = s := rfl

/-- A scan in which the dual state reads successfully, the event pool
accepts every event and every matched transaction's input decodes,
produces exactly the expected events, one AddEvent attempt each, and
completes the block. -/
theorem scanTxs_success (env : EthEnv) (ad : Adapter) (addr : String)
    (ds : DualState) (mName : EthTx → String)
    (hds : env.dualState = .ok ds)
    (hacc : ∀ ev, env.addEventAccepts ev = true) :
    ∀ txs : List EthTx,
      (∀ tx ∈ txs, tx.toAddr = some addr →
        env.decodeMethod tx.data = some (mName tx)) →
      ∃ tr : HTrace,
        scanTxs env ad addr txs = .done tr true
        ∧ tr.added = expectedEvents ad ds mName addr txs
        ∧ tr.attempts = expectedEvents ad ds mName addr txs := by
  intro txs
  induction txs with
  | nil =>
    intro _
    exact ⟨{ logs := [], attempts := [], added := [] }, rfl, rfl, rfl⟩
  | cons tx rest ih =>
    intro h
    obtain ⟨tr, hEq, hAdd, hAtt⟩ :=
      ih (fun t ht => h t (List.mem_cons_of_mem _ ht))
    by_cases hm : tx.toAddr = some addr
    · have hdec := h tx (List.mem_cons_self _ _) hm
      have hsum : extractEthTxSummary env tx
          = .ok { txMethod := mName tx, txValue := tx.value } := by
        simp [extractEthTxSummary, hdec]
      refine ⟨consTrace (eventOf ad ds tx
        { txMethod := mName tx, txValue := tx.value }) tr, ?_, ?_, ?_⟩
      · simp only [scanTxs, if_pos hm, hsum, hds, hacc, hEq]
        simp [consTrace]
      · simp [consTrace, expectedEvents, List.filter_cons, hm, hAdd]
      · simp [consTrace, expectedEvents, List.filter_cons, hm, hAtt]
    · refine ⟨tr, ?_, ?_, ?_⟩
      · simp only [scanTxs, if_neg hm]
        exact hEq
      · rw [hAdd]
        simp [expectedEvents, List.filter_cons, hm]
      · rw [hAtt]
        simp [expectedEvents, List.filter_cons, hm]

/-- C3: on a block whose matched transactions all decode, with dual state
available and the pool accepting (so the scan is not aborted), the
dispatcher produces exactly one event per transaction addressed to the
bridge contract, in block order, each summary carrying the decoded method
and the transaction's native value; transactions addressed elsewhere
contribute nothing, and the scan completes the whole block. -/
theorem c3_extractor_block_summaries (env : EthEnv) (ad : Adapter)
    (b : EthBlock) (ds : DualState) (mName : EthTx → String)
    (hds : env.dualState = .ok ds)
    (hacc : ∀ ev, env.addEventAccepts ev = true)
    (hdec : ∀ tx ∈ b.txs, tx.toAddr = some env.contractAddress →
      env.decodeMethod tx.data = some (mName tx)) :
    (handleBlock env (some ad) (some b)).added.map (fun ev => ev.summary)
      = (b.txs.filter
          (fun tx => decide (tx.toAddr = some env.contractAddress))).map
          (fun tx => { txMethod := mName tx, txValue := tx.value })
    ∧ (handleBlock env (some ad) (some b)).added.length
      = (b.txs.filter
          (fun tx => decide (tx.toAddr = some env.contractAddress))).length
    ∧ (handleBlock env (some ad) (some b)).isDoneCompleted = true := by
  obtain ⟨tr, hEq, hAdd, hAtt⟩ :=
    scanTxs_success env ad env.contractAddress ds mName hds hacc b.txs hdec
  have hH : handleBlock env (some ad) (some b)
      = .done { logs := "handleBlock..." :: tr.logs,
                attempts := tr.attempts, added := tr.added } true := by
    simp only [handleBlock, hEq]
  refine ⟨?_, ?_, ?_⟩
  · rw [hH]
    show tr.added.map (fun ev => ev.summary) = _
    rw [hAdd]
    simp [expectedEvents, List.map_map, Function.comp, eventOf_summary]
  · rw [hH]
    show tr.added.length = _
    rw [hAdd]
    simp [expectedEvents]
  · rw [hH]
    rfl

/-- C3 witness: on the concrete three-transaction block with exactly one
transaction addressed to the bridge contract, the dispatcher emits
exactly the one summary with the decoded method and value 1000, and
completes the block. -/
theorem c3_extractor_block_summaries_witness :
    (handleBlock envScanOk (some adNone) (some blkABC)).added.map
      (fun ev => ev.summary) = [{ txMethod := "deposit", txValue := 1000 }]
    ∧ (handleBlock envScanOk (some adNone) (some blkABC)).added.length = 1
    ∧ (handleBlock envScanOk (some adNone) (some blkABC)).isDoneCompleted
      = true := by
  have h := c3_extractor_block_summaries envScanOk adNone blkABC
    nineNonceDual (fun _ => "deposit") rfl (fun _ => rfl)
    (fun tx _ _ => rfl)
  refine ⟨?_, ?_, h.2.2⟩
  · rw [h.1]
    decide
  · rw [h.2.1]
    decide

/-- C4 counterexample: on the concrete two-matched-transaction block,
when the event pool rejects the first event, the dispatcher makes exactly
one AddEvent attempt and does not complete the scan — the second matched
transaction is never processed — although the same block under an
accepting pool attempts both events. -/
theorem c4_counterexample_rejection_aborts_block :
    (handleBlock envReject (some adNone) (some blkAD)).attempts.length = 1
    ∧ (handleBlock envReject (some adNone) (some blkAD)).added = []
    ∧ (handleBlock envReject (some adNone) (some blkAD)).isDoneCompleted
      = false
    ∧ (handleBlock envScanOk (some adNone) (some blkAD)).attempts.length
      = 2 := by
  refine ⟨?_, ?_, ?_, ?_⟩ <;> decide

/-- C4 amended: a pool rejection of the first matched transaction's event
is logged once, the event is attempted exactly once (no retry), nothing
is added — and the scan of the remaining transactions of the block is
aborted: the outcome is a fixed record independent of the rest of the
block. -/
theorem c4_amended_rejection_aborts_scan (env : EthEnv) (ad : Adapter)
    (tx : EthTx) (rest : List EthTx) (ds : DualState) (m : String)
    (hm : tx.toAddr = some env.contractAddress)
    (hdec : env.decodeMethod tx.data = some m)
    (hds : env.dualState = .ok ds)
    (hrej : env.addEventAccepts
      (eventOf ad ds tx { txMethod := m, txValue := tx.value }) = false) :
    handleBlock env (some ad) (some { txs := tx :: rest })
      = .done (rejTrace (eventOf ad ds tx
          { txMethod := m, txValue := tx.value })) false := by
  have hsum : extractEthTxSummary env tx
      = .ok { txMethod := m, txValue := tx.value } := by
    simp [extractEthTxSummary, hdec]
  simp only [handleBlock, scanTxs, if_pos hm, hsum, hds, hrej]
  simp [rejTrace]

/-- C4 amended witness: on the concrete block, the rejected first event
is attempted once and the outcome is the fixed aborted trace. -/
theorem c4_amended_rejection_aborts_scan_witness :
    handleBlock envReject (some adNone) (some blkAD)
      = .done (rejTrace (eventOf adNone nineNonceDual txA
          { txMethod := "deposit", txValue := 1000 })) false := by
  exact c4_amended_rejection_aborts_scan envReject adNone txA [txD]
    nineNonceDual "deposit" rfl rfl rfl rfl

end DualEth
